import Mathlib

/-!
Shallow embedding of the desktop recorder service
(`src/apps/whispering/src/lib/services/recorder/desktop.ts`).

Bytes are modelled as `Nat` values below 256, byte buffers as `List Nat`.
A 32-bit float sample is represented by its IEEE-754 binary32 bit pattern
(a `Nat` below 2^32); the `Float32Array` backing store lays each element
out in little-endian byte order, which is what `bytes4` produces.
JavaScript `DataView.setUint32`/`setUint16` coerce their argument with
ToUint32/ToUint16, i.e. reduction mod 2^32 / 2^16 (`asU32` / `asU16`).
-/

namespace Epicenter

/-- Result type mirroring wellcrafted's `Ok`/`Err` discriminated pair. -/
inductive WCResult (α ε : Type) where
  | Ok (data : α)
  | Err (error : ε)
  deriving DecidableEq, Repr

/-- Whether a result is the error case (`error` field non-null). -/
def WCResult.isErr : WCResult α ε → Bool
  | .Ok _ => false
  | .Err _ => true

/-- Whether a result is the success case. -/
def WCResult.isOk : WCResult α ε → Bool
  | .Ok _ => true
  | .Err _ => false

/-- The error wrapped by the local `invoke` helper:
`Err({ name: 'TauriInvokeError', command, error })`.  The underlying
error payload is opaque; we model it as a `Nat` code. -/
structure TauriInvokeError where
  command : String
  error : Nat
  deriving DecidableEq, Repr

/-- JavaScript truthiness of an optional string: `!x` holds exactly when
`x` is `undefined`/`null` or the empty string. -/
def truthyStr : Option String → Bool
  | none => false
  | some s => s != ""

/-- `setUint32(_, n, true)` operand coercion: ToUint32. -/
def asU32 (n : Nat) : Nat := n % 4294967296

/-- `setUint16(_, n, true)` operand coercion: ToUint16. -/
def asU16 (n : Nat) : Nat := n % 65536

/-- The four little-endian bytes written by `setUint32(offset, n, true)`
(after ToUint32 coercion of `n`). -/
def bytes4 (n : Nat) : List Nat :=
  [n % 256, n / 256 % 256, n / 65536 % 256, n / 16777216 % 256]

/-- The two little-endian bytes written by `setUint16(offset, n, true)`
(after ToUint16 coercion of `n`). -/
def bytes2 (n : Nat) : List Nat :=
  [n % 256, n / 256 % 256]

/-- `writeString(view, offset, s)`: one byte per character, the UTF-16
code unit (`charCodeAt`), which for the ASCII tags used here coincides
with `Char.toNat`. -/
def writeString (s : String) : List Nat := s.data.map Char.toNat

/-- `createWavFromFloat32(float32Array, sampleRate, numChannels)`
(desktop.ts lines 312–356), as the byte buffer it fills: the 44-byte
header written field by field at consecutive offsets, followed by the
sample words copied little-endian.  `float32Array` is the list of the
samples' binary32 bit patterns. -/
def createWavFromFloat32 (float32Array : List Nat)
    (sampleRate numChannels : Nat) : List Nat :=
  let bitsPerSample := 32
  let bytesPerSample := bitsPerSample / 8
  let dataSize := float32Array.length * bytesPerSample
  let headerSize := 44
  let totalSize := headerSize + dataSize
  writeString "RIFF"
    ++ bytes4 (asU32 (totalSize - 8))
    ++ writeString "WAVE"
    ++ writeString "fmt "
    ++ bytes4 (asU32 16)
    ++ bytes2 (asU16 3)
    ++ bytes2 (asU16 numChannels)
    ++ bytes4 (asU32 sampleRate)
    ++ bytes4 (asU32 (sampleRate * numChannels * bytesPerSample))
    ++ bytes2 (asU16 (numChannels * bytesPerSample))
    ++ bytes2 (asU16 bitsPerSample)
    ++ writeString "data"
    ++ bytes4 (asU32 dataSize)
    ++ (float32Array.map (fun w => bytes4 (asU32 w))).flatten

/-- Little-endian 16-bit read at offset `i` of a byte buffer. -/
def readU16 (l : List Nat) (i : Nat) : Nat :=
  l.getD i 0 + 256 * l.getD (i + 1) 0

/-- Little-endian 32-bit read at offset `i` of a byte buffer. -/
def readU32 (l : List Nat) (i : Nat) : Nat :=
  l.getD i 0 + 256 * l.getD (i + 1) 0
    + 65536 * l.getD (i + 2) 0 + 16777216 * l.getD (i + 3) 0

/-- Modelled from the spec: the byte layout §4.1/§8 promises for
`encode(S, R, C)` — tags at 0/8/12/36, exact (untruncated) little-endian
header fields, then the samples as consecutive little-endian 32-bit
words.  Used as the spec side of the refinement claim about the encoder. -/
def wavLayoutSpec (samples : List Nat) (sampleRate numChannels : Nat) :
    List Nat :=
  writeString "RIFF"
    ++ bytes4 (44 + samples.length * 4 - 8)
    ++ writeString "WAVE"
    ++ writeString "fmt "
    ++ bytes4 16
    ++ bytes2 3
    ++ bytes2 numChannels
    ++ bytes4 sampleRate
    ++ bytes4 (sampleRate * numChannels * 4)
    ++ bytes2 (numChannels * 4)
    ++ bytes2 32
    ++ writeString "data"
    ++ bytes4 (samples.length * 4)
    ++ (samples.map bytes4).flatten

/-- `'no-device-selected' | 'preferred-device-unavailable'`. -/
inductive FallbackReason where
  | noDeviceSelected
  | preferredDeviceUnavailable
  deriving DecidableEq, Repr

/-- `DeviceAcquisitionOutcome`: `{ outcome: 'success' }` or
`{ outcome: 'fallback', reason, fallbackDeviceId }`. -/
inductive DeviceAcquisitionOutcome where
  | success
  | fallback (reason : FallbackReason) (fallbackDeviceId : String)
  deriving DecidableEq, Repr

/-- `StartRecordingParams`: a discriminated union on `platform`.  The
desktop variant carries the fields destructured at desktop.ts line 61;
any other platform is represented by `web` with an opaque payload. -/
inductive StartRecordingParams where
  | desktop (selectedDeviceId : Option String) (recordingId : String)
      (outputFolder : Option String) (sampleRate : Option String)
  | web (other : Nat)
  deriving DecidableEq, Repr

/-- The cause slot of a `RecorderServiceErr`: `undefined`, a wrapped
Tauri invoke error, or a caught file-system exception (opaque code). -/
inductive ErrCause where
  | undef
  | tauri (e : TauriInvokeError)
  | fs (e : Nat)
  deriving DecidableEq, Repr

/-- The `context` object attached at each `RecorderServiceErr` site,
one constructor per distinct shape in desktop.ts. -/
inductive ErrContext where
  | noContext
  | params (p : StartRecordingParams)
  | acquire (selectedDeviceId : Option String) (deviceIds : List String)
  | initSession (selectedDeviceId : Option String)
      (deviceIdentifier : Option String)
  | start (deviceIdentifier : Option String)
      (deviceOutcome : DeviceAcquisitionOutcome)
  | operation (op : String)
  | readFileOp (op : String) (filePath : String)
  | getId (error : TauriInvokeError)
  deriving DecidableEq, Repr

/-- `RecorderServiceError` payload: message, context, cause. -/
structure RecorderServiceError where
  message : String
  context : ErrContext
  cause : ErrCause
  deriving DecidableEq, Repr

/-- Observable effects issued by the orchestrator, in program order:
Tauri commands, file-system plugin calls, `sendStatus` notifications and
`console.error` logs. -/
inductive CallEvent where
  | enumerateRecordingDevices
  | getCurrentRecordingId
  | initRecordingSession (deviceIdentifier : Option String)
      (recordingId : String) (outputFolder : Option String)
      (sampleRate : Option Int)
  | startRecordingCmd
  | stopRecordingCmd
  | closeSessionCmd
  | readFileCall (path : String)
  | removeFileCall (path : String)
  | sendStatus (title : String) (description : String)
  | logError (context : String)
  deriving DecidableEq, Repr

/-- The record returned by the `stop_recording` Tauri command.
`audioData` holds the samples' binary32 bit patterns. -/
structure AudioRecording where
  audioData : List Nat
  sampleRate : Nat
  channels : Nat
  durationSeconds : Nat
  filePath : Option String
  deriving DecidableEq, Repr

/-- `CancelRecordingResult`: `{ status: 'no-recording' | 'cancelled' }`. -/
inductive CancelRecordingResult where
  | noRecording
  | cancelled
  deriving DecidableEq, Repr

/-- desktop.ts line 75: the `NoDevicesAvailable` message when a device
was selected. -/
def noDeviceMsgSelected : String :=
  "We couldn\x27t find the selected microphone. Make sure it\x27s connected and try again!"

/-- desktop.ts line 76: the `NoDevicesAvailable` message when no device
was selected. -/
def noDeviceMsgNone : String :=
  "We couldn\x27t find any microphones. Make sure they\x27re connected and try again!"

/-- desktop.ts line 147: the init-session failure message. -/
def initFailMsg : String :=
  "We encountered an issue while setting up your recording session. This could be because your microphone is being used by another app, your microphone permissions are denied, or the selected recording device is disconnected"

/-- The `acquireDevice` closure (desktop.ts lines 67–111), parameterised
by the values it closes over (`deviceIds`, `selectedDeviceId`), paired
with the `sendStatus` notifications it emits.  `deviceIds.at(0)` is
`head?`; `!fallbackDeviceId` and `!selectedDeviceId` are JavaScript
truthiness checks, false for `undefined` and for the empty string. -/
def acquireDevice (deviceIds : List String)
    (selectedDeviceId : Option String) :
    WCResult DeviceAcquisitionOutcome RecorderServiceError
      × List CallEvent :=
  let fallbackDeviceId := deviceIds.head?
  if truthyStr fallbackDeviceId = false then
    (.Err { message :=
              if truthyStr selectedDeviceId then noDeviceMsgSelected
              else noDeviceMsgNone,
            context := .acquire selectedDeviceId deviceIds,
            cause := .undef }, [])
  else if truthyStr selectedDeviceId = false then
    (.Ok (.fallback .noDeviceSelected (fallbackDeviceId.getD "")),
     [CallEvent.sendStatus "🔍 No Device Selected"
        "No worries! We\x27ll find the best microphone for you automatically..."])
  else if deviceIds.contains (selectedDeviceId.getD "") then
    (.Ok .success, [])
  else
    (.Ok (.fallback .preferredDeviceUnavailable (fallbackDeviceId.getD "")),
     [CallEvent.sendStatus "⚠️ Finding a New Microphone"
        "That microphone isn\x27t available. Let\x27s try finding another one..."])

/-- desktop.ts lines 118–121: the device identifier handed to
`init_recording_session` — the selected one on `success`, the fallback
one otherwise. -/
def chosenDeviceIdentifier (selectedDeviceId : Option String)
    (deviceOutcome : DeviceAcquisitionOutcome) : Option String :=
  match deviceOutcome with
  | .success => selectedDeviceId
  | .fallback _ fallbackDeviceId => some fallbackDeviceId

/-- `Number.parseInt(s, 10)`: skip leading whitespace, read an optional
sign and then leading decimal digits; `none` models `NaN` (no digit). -/
def parseIntBase10 (s : String) : Option Int :=
  let cs := s.data.dropWhile fun c => c = ' ' ∨ c = '\t' ∨ c = '\n' ∨ c = '\r'
  let signAndRest : Int × List Char :=
    match cs with
    | '-' :: rest => (-1, rest)
    | '+' :: rest => (1, rest)
    | rest => (1, rest)
  let digits := signAndRest.2.takeWhile Char.isDigit
  if digits.isEmpty then none
  else some (signAndRest.1 *
    (digits.foldl (fun acc c => 10 * acc + (c.toNat - 48)) 0 : Nat))

/-- `outputFolder || undefined`: the empty string collapses to
`undefined`. -/
def jsOrUndefined (o : Option String) : Option String :=
  if truthyStr o then o else none

/-- `startRecording` (desktop.ts lines 48–171).  The engine's replies to
the three Tauri commands it may issue are passed in as `enumerateRes`,
`initRes` and `startRes`; the function returns the wellcrafted result
together with the ordered trace of effects actually issued. -/
def startRecording (params : StartRecordingParams)
    (enumerateRes : WCResult (List String) TauriInvokeError)
    (initRes : WCResult Unit TauriInvokeError)
    (startRes : WCResult Unit TauriInvokeError) :
    WCResult DeviceAcquisitionOutcome RecorderServiceError
      × List CallEvent :=
  match params with
  | .web _ =>
    (.Err { message := "Desktop recorder received non-desktop parameters",
            context := .params params, cause := .undef }, [])
  | .desktop selectedDeviceId recordingId outputFolder sampleRate =>
    match enumerateRes with
    | .Err e =>
      (.Err { message := "Failed to enumerate recording devices",
              context := .noContext, cause := .tauri e },
       [CallEvent.enumerateRecordingDevices])
    | .Ok deviceIds =>
      let acq := acquireDevice deviceIds selectedDeviceId
      let ev0 := CallEvent.enumerateRecordingDevices :: acq.2
      match acq.1 with
      | .Err e => (.Err e, ev0)
      | .Ok deviceOutcome =>
        let deviceIdentifier :=
          chosenDeviceIdentifier selectedDeviceId deviceOutcome
        let sampleRateNum :=
          if truthyStr sampleRate then parseIntBase10 (sampleRate.getD "")
          else none
        let ev1 := ev0 ++
          [CallEvent.sendStatus "🎤 Setting Up"
             "Initializing your recording session and checking microphone access...",
           CallEvent.initRecordingSession deviceIdentifier recordingId
             (jsOrUndefined outputFolder) sampleRateNum]
        match initRes with
        | .Err e =>
          (.Err { message := initFailMsg,
                  context := .initSession selectedDeviceId deviceIdentifier,
                  cause := .tauri e }, ev1)
        | .Ok _ =>
          let ev2 := ev1 ++
            [CallEvent.sendStatus "🎙️ Starting Recording"
               "Recording session initialized, now starting to capture audio...",
             CallEvent.startRecordingCmd]
          match startRes with
          | .Err e =>
            (.Err { message :=
                      "Unable to start recording. Please check your microphone and try again.",
                    context := .start deviceIdentifier deviceOutcome,
                    cause := .tauri e }, ev2)
          | .Ok _ => (.Ok deviceOutcome, ev2)

/-- desktop.ts lines 225–238, shared tail of both `stopRecording`
branches: announce, issue `close_recording_session`, log (but swallow) a
close failure, and return the already-produced blob. -/
def finishStop (blob : List Nat) (ev : List CallEvent)
    (closeRes : WCResult Unit TauriInvokeError) :
    WCResult (List Nat) RecorderServiceError × List CallEvent :=
  let ev1 := ev ++
    [CallEvent.sendStatus "🔄 Closing Session"
       "Cleaning up recording resources...",
     CallEvent.closeSessionCmd]
  match closeRes with
  | .Err _ =>
    (.Ok blob, ev1 ++ [CallEvent.logError "Failed to close recording session:"])
  | .Ok _ => (.Ok blob, ev1)

/-- `stopRecording` (desktop.ts lines 173–239).  `stopRes` is the
engine's reply to `stop_recording`, `readFileRes` the file store's reply
to `readFile`, `closeRes` the reply to `close_recording_session`.  The
blob is the returned byte buffer.  `if (audioRecording.filePath)` is a
truthiness check: absent or empty path takes the legacy encode branch. -/
def stopRecording (stopRes : WCResult AudioRecording TauriInvokeError)
    (readFileRes : String → WCResult (List Nat) Nat)
    (closeRes : WCResult Unit TauriInvokeError) :
    WCResult (List Nat) RecorderServiceError × List CallEvent :=
  match stopRes with
  | .Err e =>
    (.Err { message := "Unable to save your recording. Please try again.",
            context := .operation "stopRecording", cause := .tauri e },
     [CallEvent.stopRecordingCmd])
  | .Ok audioRecording =>
    if truthyStr audioRecording.filePath then
      let fp := audioRecording.filePath.getD ""
      let ev1 := [CallEvent.stopRecordingCmd,
        CallEvent.sendStatus "📁 Reading Recording"
          "Loading your recording from disk...",
        CallEvent.readFileCall fp]
      match readFileRes fp with
      | .Err e =>
        (.Err { message := "Unable to read recording file. Please try again.",
                context := .readFileOp "readRecordingFile" fp,
                cause := .fs e }, ev1)
      | .Ok fileBytes => finishStop fileBytes ev1 closeRes
    else
      finishStop
        (createWavFromFloat32 audioRecording.audioData
          audioRecording.sampleRate audioRecording.channels)
        [CallEvent.stopRecordingCmd] closeRes

/-- `cancelRecording` (desktop.ts lines 241–300).  `getIdRes` is the
reply to `get_current_recording_id`; `stopRes`, `removeRes`, `closeRes`
are the replies to the cleanup calls.  `!recordingId` is a truthiness
check; the `stop_recording` error is destructured away (discarded
silently); a delete or close failure is logged and swallowed. -/
def cancelRecording (getIdRes : WCResult (Option String) TauriInvokeError)
    (stopRes : WCResult AudioRecording TauriInvokeError)
    (removeRes : String → WCResult Unit Nat)
    (closeRes : WCResult Unit TauriInvokeError) :
    WCResult CancelRecordingResult RecorderServiceError
      × List CallEvent :=
  match getIdRes with
  | .Err e =>
    (.Err { message :=
              "Unable to check recording state. Please try closing the app and starting again.",
            context := .operation "cancelRecording", cause := .tauri e },
     [CallEvent.getCurrentRecordingId])
  | .Ok recordingId =>
    if truthyStr recordingId = false then
      (.Ok .noRecording, [CallEvent.getCurrentRecordingId])
    else
      let ev0 := [CallEvent.getCurrentRecordingId,
        CallEvent.sendStatus "🛑 Cancelling"
          "Safely stopping your recording and cleaning up resources...",
        CallEvent.stopRecordingCmd]
      let audioRecording : Option AudioRecording :=
        match stopRes with
        | .Ok r => some r
        | .Err _ => none
      let ev1 :=
        if truthyStr (audioRecording.bind AudioRecording.filePath) then
          let fp := (audioRecording.bind AudioRecording.filePath).getD ""
          match removeRes fp with
          | .Ok _ => ev0 ++ [CallEvent.removeFileCall fp]
          | .Err _ => ev0 ++ [CallEvent.removeFileCall fp,
              CallEvent.logError "Failed to delete recording file:"]
        else ev0
      let ev2 := ev1 ++
        [CallEvent.sendStatus "🔄 Closing Session"
           "Cleaning up recording resources...",
         CallEvent.closeSessionCmd]
      let ev3 :=
        match closeRes with
        | .Err _ => ev2 ++ [CallEvent.logError "Failed to close recording session:"]
        | .Ok _ => ev2
      (.Ok .cancelled, ev3)

lemma flatten_map_bytes4_length (S : List Nat) :
    ((S.map bytes4).flatten).length = 4 * S.length := by
  induction S with
  | nil => simp
  | cons a t ih => simp [bytes4, ih]; omega

lemma wavLayoutSpec_length (S : List Nat) (R C : Nat) :
    (wavLayoutSpec S R C).length = 44 + 4 * S.length := by
  have t1 : (writeString "RIFF").length = 4 := rfl
  have t2 : (writeString "WAVE").length = 4 := rfl
  have t3 : (writeString "fmt ").length = 4 := rfl
  have t4 : (writeString "data").length = 4 := rfl
  simp only [wavLayoutSpec, List.length_append, flatten_map_bytes4_length,
    t1, t2, t3, t4, bytes4, bytes2, List.length_cons, List.length_nil]
  try omega

/-- C1 (counterexample): the encoder stores the sample-rate field through
`setUint32`, which reduces mod 2^32, so at R = 2^32 the little-endian
u32 at offset 24 is 0, not R as the claim states for every R > 0. -/
theorem c1_claim_cex :
    0 < 4294967296 ∧
    readU32 (createWavFromFloat32 [] 4294967296 1) 24 = 0 ∧
    readU32 (createWavFromFloat32 [] 4294967296 1) 24 ≠ 4294967296 := by
  decide

/-- C1 (amended): for samples given as binary32 bit patterns and header
inputs small enough that no `setUint32`/`setUint16` truncation occurs
(R < 2^32, C*4 < 2^16, R*C*4 < 2^32, 36 + 4|S| < 2^32), the encoder
output is exactly the spec's layout — the three tags, the exact
little-endian header fields, and the samples as consecutive
little-endian 32-bit words — and has length 44 + 4|S|. -/
theorem c1_wav_layout (S : List Nat) (R C : Nat)
    (hR0 : 0 < R) (hC0 : 0 < C)
    (hR : R < 4294967296) (hC4 : C * 4 < 65536)
    (hRate : R * C * 4 < 4294967296)
    (hLen : 36 + S.length * 4 < 4294967296)
    (hS : ∀ w ∈ S, w < 4294967296) :
    createWavFromFloat32 S R C = wavLayoutSpec S R C ∧
    (createWavFromFloat32 S R C).length = 44 + 4 * S.length := by
  have hmap : S.map (fun w => bytes4 (asU32 w)) = S.map bytes4 := by
    refine List.map_congr_left ?_
    intro w hw
    rw [asU32, Nat.mod_eq_of_lt (hS w hw)]
  have heq : createWavFromFloat32 S R C = wavLayoutSpec S R C := by
    unfold createWavFromFloat32 wavLayoutSpec
    norm_num
    rw [hmap, asU32, asU32, asU32, asU32, asU32, asU16, asU16, asU16, asU16,
      Nat.mod_eq_of_lt (show 44 + S.length * 4 - 8 < 4294967296 by omega),
      Nat.mod_eq_of_lt (show (16 : Nat) < 4294967296 by omega),
      Nat.mod_eq_of_lt (show (3 : Nat) < 65536 by omega),
      Nat.mod_eq_of_lt (show C < 65536 by omega),
      Nat.mod_eq_of_lt hR,
      Nat.mod_eq_of_lt hRate,
      Nat.mod_eq_of_lt hC4,
      Nat.mod_eq_of_lt (show (32 : Nat) < 65536 by omega),
      Nat.mod_eq_of_lt (show S.length * 4 < 4294967296 by omega)]
  exact ⟨heq, by rw [heq, wavLayoutSpec_length]⟩

/-- Witness for the amended C1 at a concrete input. -/
theorem c1_wav_layout_witness :
    createWavFromFloat32 [1, 4294967295] 44100 2 =
      wavLayoutSpec [1, 4294967295] 44100 2 ∧
    (createWavFromFloat32 [1, 4294967295] 44100 2).length = 44 + 4 * 2 := by
  have h := c1_wav_layout [1, 4294967295] 44100 2 (by decide) (by decide)
    (by decide) (by decide) (by decide) (by decide) (by decide)
  exact ⟨h.1, by simpa using h.2⟩

/-- C2 (counterexample): `!fallbackDeviceId` is a JavaScript truthiness
check, so a non-empty device list whose first entry is the empty string
also fails `NoDevicesAvailable`, refuting "fails if and only if the
enumerated device list is empty". -/
theorem c2_claim_cex :
    ([""] : List String) ≠ [] ∧
    (acquireDevice [""] none).1.isErr = true := by decide

/-- C2 (amended): device acquisition fails with the `NoDevicesAvailable`
error exactly when the first enumerated entry is absent or the empty
string (in particular whenever the list is empty); on failure the
preference affects only which message the error carries; otherwise it
always succeeds with some outcome. -/
theorem c2_acquire_fails_iff (deviceIds : List String)
    (selectedDeviceId : Option String) :
    ((acquireDevice deviceIds selectedDeviceId).1.isErr = true ↔
      truthyStr deviceIds.head? = false) ∧
    (truthyStr deviceIds.head? = false →
      (acquireDevice deviceIds selectedDeviceId).1 =
        .Err { message :=
                 if truthyStr selectedDeviceId then noDeviceMsgSelected
                 else noDeviceMsgNone,
               context := .acquire selectedDeviceId deviceIds,
               cause := .undef }) := by
  unfold acquireDevice
  cases hb : truthyStr deviceIds.head? with
  | false => simp [hb, WCResult.isErr]
  | true =>
    by_cases hs : truthyStr selectedDeviceId = false
    · simp [hb, hs, WCResult.isErr]
    · by_cases hc : selectedDeviceId.getD "" ∈ deviceIds
      · simp [hb, hs, hc, WCResult.isErr, List.contains, List.elem_eq_mem]
      · simp [hb, hs, hc, WCResult.isErr, List.contains, List.elem_eq_mem]

/-- Witness for the amended C2 at a concrete input. -/
theorem c2_acquire_fails_iff_witness :
    (acquireDevice [""] (some "mic")).1 =
      .Err { message :=
               if truthyStr (some "mic") then noDeviceMsgSelected
               else noDeviceMsgNone,
             context := .acquire (some "mic") [""],
             cause := .undef } :=
  (c2_acquire_fails_iff [""] (some "mic")).2 (by decide)

/-- C3 (counterexample): the empty string is a member of
`["a", ""]`, but when it is the preferred identifier the code's
`!selectedDeviceId` truthiness check routes to the no-device-selected
fallback instead of `Success`. -/
theorem c3_claim_cex :
    ("" ∈ (["a", ""] : List String)) ∧
    (acquireDevice ["a", ""] (some "")).1 =
      .Ok (.fallback .noDeviceSelected "a") ∧
    DeviceAcquisitionOutcome.fallback .noDeviceSelected "a" ≠
      .success := by decide

/-- C3 (amended): when the first enumerated entry is a non-empty string
and the preferred identifier is a non-empty member of the list, device
acquisition returns `Success` and the device identifier bound to the
engine session is the preferred identifier itself. -/
theorem c3_preferred_found (deviceIds : List String) (p : String)
    (hhead : truthyStr deviceIds.head? = true)
    (hp : p ≠ "") (hmem : p ∈ deviceIds) :
    (acquireDevice deviceIds (some p)).1 = .Ok .success ∧
    chosenDeviceIdentifier (some p) .success = some p := by
  refine ⟨?_, rfl⟩
  have h1 : truthyStr (some p) = true := by simp [truthyStr, hp]
  unfold acquireDevice
  simp [hhead, h1, List.contains, hmem]

/-- Witness for the amended C3 at a concrete input. -/
theorem c3_preferred_found_witness :
    (acquireDevice ["a", "b"] (some "b")).1 = .Ok .success ∧
    chosenDeviceIdentifier (some "b") .success = some "b" :=
  c3_preferred_found ["a", "b"] "b" (by decide) (by decide) (by decide)

/-- C4 (counterexample): the preferred identifier `""` is given and is
not a member of `["a"]`, yet the truthiness check classifies it as
"no device selected", so the fallback reason is `NoDeviceSelected`, not
`PreferredUnavailable` as the claim requires. -/
theorem c4_claim_cex :
    (some "" ≠ (none : Option String)) ∧
    ("" ∉ (["a"] : List String)) ∧
    (acquireDevice ["a"] (some "")).1 =
      .Ok (.fallback .noDeviceSelected "a") ∧
    FallbackReason.noDeviceSelected ≠ .preferredDeviceUnavailable := by
  decide

/-- C4 (amended): when the first enumerated entry `d` is a non-empty
string, acquisition returns `Fallback{NoDeviceSelected, d}` whenever the
preference is absent or the empty string, and
`Fallback{PreferredUnavailable, d}` whenever a non-empty preference is
given that is not a member of the list; in both cases the fallback
device is the first entry, never any other. -/
theorem c4_fallback_first (deviceIds : List String) (d : String)
    (selectedDeviceId : Option String)
    (hd : deviceIds.head? = some d) (hne : d ≠ "") :
    (truthyStr selectedDeviceId = false →
      (acquireDevice deviceIds selectedDeviceId).1 =
        .Ok (.fallback .noDeviceSelected d)) ∧
    (∀ p, selectedDeviceId = some p → p ≠ "" → p ∉ deviceIds →
      (acquireDevice deviceIds selectedDeviceId).1 =
        .Ok (.fallback .preferredDeviceUnavailable d)) := by
  have hfd : truthyStr (some d) = true := by simp [truthyStr, hne]
  constructor
  · intro hsel
    unfold acquireDevice
    simp [hd, hfd, hsel]
  · rintro p rfl hp hmem
    have h1 : truthyStr (some p) = true := by simp [truthyStr, hp]
    unfold acquireDevice
    simp [hd, hfd, h1, List.contains, List.elem_eq_mem, hmem]

/-- Witness for the amended C4 at concrete inputs. -/
theorem c4_fallback_first_witness :
    (acquireDevice ["a"] none).1 =
      .Ok (.fallback .noDeviceSelected "a") ∧
    (acquireDevice ["a", "b"] (some "c")).1 =
      .Ok (.fallback .preferredDeviceUnavailable "a") :=
  ⟨(c4_fallback_first ["a"] "a" none rfl (by decide)).1 (by decide),
   (c4_fallback_first ["a", "b"] "a" (some "c") rfl (by decide)).2
     "c" rfl (by decide) (by decide)⟩

/-- C5 (counterexample): `if (audioRecording.filePath)` is a truthiness
check, so a stop result that carries the file path `""` is routed to the
legacy WAV-encode branch, not the file-read branch, even though the
file store would return bytes for it. -/
theorem c5_claim_cex :
    (AudioRecording.mk [] 1 1 0 (some "")).filePath ≠ none ∧
    (stopRecording (.Ok ⟨[], 1, 1, 0, some ""⟩)
        (fun _ => .Ok [1, 2, 3]) (.Ok ())).1 =
      .Ok (createWavFromFloat32 [] 1 1) ∧
    createWavFromFloat32 [] 1 1 ≠ [1, 2, 3] := by decide

/-- C5 (amended): on a successful engine stop, when the stop result
carries a non-empty file path the returned audio bytes are exactly the
bytes read from that file (and a read failure is surfaced, no blob);
when the file path is absent or empty the returned bytes are exactly
the WAV encoder applied to the raw samples, sample rate and channel
count; exactly one of the two paths is taken. -/
theorem c5_stop_paths (rec : AudioRecording)
    (readFileRes : String → WCResult (List Nat) Nat)
    (closeRes : WCResult Unit TauriInvokeError) :
    (∀ p, rec.filePath = some p → p ≠ "" →
      (∀ bs, readFileRes p = .Ok bs →
        (stopRecording (.Ok rec) readFileRes closeRes).1 = .Ok bs) ∧
      (∀ e, readFileRes p = .Err e →
        (stopRecording (.Ok rec) readFileRes closeRes).1 =
          .Err { message := "Unable to read recording file. Please try again.",
                 context := .readFileOp "readRecordingFile" p,
                 cause := .fs e })) ∧
    (truthyStr rec.filePath = false →
      (stopRecording (.Ok rec) readFileRes closeRes).1 =
        .Ok (createWavFromFloat32 rec.audioData rec.sampleRate
              rec.channels)) := by
  constructor
  · rintro p hp hne
    have hpt : truthyStr (some p) = true := by simp [truthyStr, hne]
    constructor
    · intro bs hbs
      unfold stopRecording
      cases closeRes <;> simp [hp, hpt, hbs, finishStop]
    · intro e he
      unfold stopRecording
      simp [hp, hpt, he]
  · intro hf
    unfold stopRecording
    cases closeRes <;> simp [hf, finishStop]

/-- Witness for the amended C5 at concrete inputs. -/
theorem c5_stop_paths_witness :
    (stopRecording (.Ok ⟨[], 1, 1, 0, some "rec.wav"⟩)
        (fun _ => .Ok [7]) (.Ok ())).1 = .Ok [7] ∧
    (stopRecording (.Ok ⟨[2], 8000, 1, 0, none⟩)
        (fun _ => .Ok [7]) (.Ok ())).1 =
      .Ok (createWavFromFloat32 [2] 8000 1) :=
  ⟨((c5_stop_paths ⟨[], 1, 1, 0, some "rec.wav"⟩
      (fun _ => .Ok [7]) (.Ok ())).1 "rec.wav" rfl (by decide)).1 [7] rfl,
   (c5_stop_paths ⟨[2], 8000, 1, 0, none⟩
      (fun _ => .Ok [7]) (.Ok ())).2 (by decide)⟩

/-- C6: if a stop whose close succeeds returns the audio blob, then the
same stop with a failing close returns the same blob — the close
failure only appends a `console.error` log to the effect trace, it is
never surfaced as the result. -/
theorem c6_close_failure_harmless (rec : AudioRecording)
    (readFileRes : String → WCResult (List Nat) Nat)
    (e : TauriInvokeError) (blob : List Nat)
    (h : (stopRecording (.Ok rec) readFileRes (.Ok ())).1 = .Ok blob) :
    (stopRecording (.Ok rec) readFileRes (.Err e)).1 = .Ok blob ∧
    (stopRecording (.Ok rec) readFileRes (.Err e)).2 =
      (stopRecording (.Ok rec) readFileRes (.Ok ())).2 ++
        [CallEvent.logError "Failed to close recording session:"] := by
  unfold stopRecording finishStop at *
  by_cases ht : truthyStr rec.filePath = true
  · simp only [ht, if_true] at *
    cases hr : readFileRes (rec.filePath.getD "") with
    | Ok bs => simp [hr] at h ⊢; simpa using h
    | Err er => simp [hr] at h
  · simp only [ht, if_false, Bool.not_eq_true] at *
    simp [ht] at h ⊢
    simpa using h

/-- Witness for C6 at a concrete input. -/
theorem c6_close_failure_harmless_witness :
    (stopRecording (.Ok ⟨[], 1, 1, 0, none⟩) (fun _ => .Ok [])
        (.Err ⟨"close_recording_session", 0⟩)).1 =
      .Ok (createWavFromFloat32 [] 1 1) ∧
    (stopRecording (.Ok ⟨[], 1, 1, 0, none⟩) (fun _ => .Ok [])
        (.Err ⟨"close_recording_session", 0⟩)).2 =
      (stopRecording (.Ok ⟨[], 1, 1, 0, none⟩) (fun _ => .Ok [])
          (.Ok ())).2 ++
        [CallEvent.logError "Failed to close recording session:"] :=
  c6_close_failure_harmless ⟨[], 1, 1, 0, none⟩ (fun _ => .Ok [])
    ⟨"close_recording_session", 0⟩ (createWavFromFloat32 [] 1 1)
    (by decide)

/-- C7: when the engine reports no current recording id, cancel returns
`NoRecording` and the effect trace is exactly the single id query — no
stop, delete or close call is issued. -/
theorem c7_cancel_no_recording
    (stopRes : WCResult AudioRecording TauriInvokeError)
    (removeRes : String → WCResult Unit Nat)
    (closeRes : WCResult Unit TauriInvokeError) :
    cancelRecording (.Ok none) stopRes removeRes closeRes =
      (.Ok .noRecording, [CallEvent.getCurrentRecordingId]) := rfl

/-- C8 (counterexample): `!recordingId` is a truthiness check, so when
the id check succeeds and reports the active recording id `""`, cancel
returns `NoRecording` instead of the `Cancelled` status the claim
requires for every reported active recording. -/
theorem c8_claim_cex :
    (some "" ≠ (none : Option String)) ∧
    (cancelRecording (.Ok (some "")) (.Ok ⟨[], 1, 1, 0, none⟩)
        (fun _ => .Ok ()) (.Ok ())).1 = .Ok .noRecording ∧
    CancelRecordingResult.noRecording ≠ .cancelled := by decide

/-- C8 (amended): cancel surfaces an error exactly when the initial
current-recording-id check fails; whenever the check succeeds and
reports a non-empty recording id, cancel returns `Cancelled` regardless
of the engine stop, file delete and session close outcomes (those
failures are swallowed — delete and close failures logged, the stop
failure silently discarded), and no audio bytes are ever returned. -/
theorem c8_cancel_failure_modes
    (getIdRes : WCResult (Option String) TauriInvokeError)
    (stopRes : WCResult AudioRecording TauriInvokeError)
    (removeRes : String → WCResult Unit Nat)
    (closeRes : WCResult Unit TauriInvokeError) :
    ((cancelRecording getIdRes stopRes removeRes closeRes).1.isErr = true ↔
      getIdRes.isErr = true) ∧
    (∀ r, getIdRes = .Ok (some r) → r ≠ "" →
      (cancelRecording getIdRes stopRes removeRes closeRes).1 =
        .Ok .cancelled) := by
  cases getIdRes with
  | Err e =>
    constructor
    · simp [cancelRecording, WCResult.isErr]
    · intro r hr; exact absurd hr (by simp)
  | Ok rid =>
    constructor
    · cases hb : truthyStr rid with
      | false => simp [cancelRecording, hb, WCResult.isErr]
      | true => simp [cancelRecording, hb, WCResult.isErr]
    · rintro r hr hne
      have : rid = some r := by simpa using hr
      subst this
      have hb : truthyStr (some r) = true := by simp [truthyStr, hne]
      simp [cancelRecording, hb]

/-- Witness for the amended C8: even with failing stop, delete and close
calls, cancel of a live recording returns `Cancelled`. -/
theorem c8_cancel_failure_modes_witness :
    (cancelRecording (.Ok (some "rec-1")) (.Err ⟨"stop_recording", 3⟩)
        (fun _ => .Err 1) (.Err ⟨"close_recording_session", 2⟩)).1 =
      .Ok .cancelled :=
  (c8_cancel_failure_modes (.Ok (some "rec-1"))
      (.Err ⟨"stop_recording", 3⟩) (fun _ => .Err 1)
      (.Err ⟨"close_recording_session", 2⟩)).2 "rec-1" rfl (by decide)

lemma acquireDevice_events_status_only (deviceIds : List String)
    (selectedDeviceId : Option String) :
    ∀ ev ∈ (acquireDevice deviceIds selectedDeviceId).2,
      ∃ t d, ev = CallEvent.sendStatus t d := by
  unfold acquireDevice
  by_cases h1 : truthyStr deviceIds.head? = false
  · simp [h1]
  · by_cases h2 : truthyStr selectedDeviceId = false
    · simp [h1, h2]
    · by_cases h3 : selectedDeviceId.getD "" ∈ deviceIds
      · simp [h1, h2, h3]
      · simp [h1, h2, h3]

/-- C9: when the desktop parameters pass, enumeration succeeds and
device acquisition succeeds but `init_recording_session` fails,
`startRecording` returns the init error carrying the selected and
effective device identifiers and the engine cause, and neither the
`start_recording` command nor any session close appears in the effect
trace. -/
theorem c9_init_failure_aborts (selectedDeviceId : Option String)
    (recordingId : String) (outputFolder sampleRate : Option String)
    (deviceIds : List String) (e : TauriInvokeError)
    (startRes : WCResult Unit TauriInvokeError)
    (deviceOutcome : DeviceAcquisitionOutcome)
    (hacq : (acquireDevice deviceIds selectedDeviceId).1 =
      .Ok deviceOutcome) :
    (startRecording
        (.desktop selectedDeviceId recordingId outputFolder sampleRate)
        (.Ok deviceIds) (.Err e) startRes).1 =
      .Err { message := initFailMsg,
             context := .initSession selectedDeviceId
               (chosenDeviceIdentifier selectedDeviceId deviceOutcome),
             cause := .tauri e } ∧
    CallEvent.startRecordingCmd ∉
      (startRecording
        (.desktop selectedDeviceId recordingId outputFolder sampleRate)
        (.Ok deviceIds) (.Err e) startRes).2 ∧
    CallEvent.closeSessionCmd ∉
      (startRecording
        (.desktop selectedDeviceId recordingId outputFolder sampleRate)
        (.Ok deviceIds) (.Err e) startRes).2 := by
  unfold startRecording
  refine ⟨by simp [hacq], ?_, ?_⟩ <;>
  · simp only [hacq]
    intro hmem
    rcases List.mem_append.mp hmem with h | h
    · rcases List.mem_cons.mp h with h2 | h2
      · simp at h2
      · obtain ⟨t, d, ht⟩ :=
          acquireDevice_events_status_only deviceIds selectedDeviceId _ h2
        simp at ht
    · simp at h

/-- Witness for C9 at a concrete input. -/
theorem c9_init_failure_aborts_witness :
    (startRecording (.desktop none "rec-1" none none)
        (.Ok ["Mic A"]) (.Err ⟨"init_recording_session", 5⟩)
        (.Ok ())).1 =
      .Err { message := initFailMsg,
             context := .initSession none
               (chosenDeviceIdentifier none
                 (.fallback .noDeviceSelected "Mic A")),
             cause := .tauri ⟨"init_recording_session", 5⟩ } ∧
    CallEvent.startRecordingCmd ∉
      (startRecording (.desktop none "rec-1" none none)
        (.Ok ["Mic A"]) (.Err ⟨"init_recording_session", 5⟩)
        (.Ok ())).2 ∧
    CallEvent.closeSessionCmd ∉
      (startRecording (.desktop none "rec-1" none none)
        (.Ok ["Mic A"]) (.Err ⟨"init_recording_session", 5⟩)
        (.Ok ())).2 :=
  c9_init_failure_aborts none "rec-1" none none ["Mic A"]
    ⟨"init_recording_session", 5⟩ (.Ok ())
    (.fallback .noDeviceSelected "Mic A") (by decide)

/-- C10: non-desktop parameters make `startRecording` return the
parameter-mismatch error immediately with an empty effect trace — no
device enumeration, no engine command, no status notification. -/
theorem c10_non_desktop_params (other : Nat)
    (enumerateRes : WCResult (List String) TauriInvokeError)
    (initRes startRes : WCResult Unit TauriInvokeError) :
    startRecording (.web other) enumerateRes initRes startRes =
      (.Err { message := "Desktop recorder received non-desktop parameters",
              context := .params (.web other), cause := .undef },
       ([] : List CallEvent)) := rfl

end Epicenter
